import Mathlib

set_option autoImplicit false

/-!
Shallow embedding of the DictDB repository (englook/DictDB).

The embedded code:
  * `src/dictdb/StorageDict.py` — class `SharedStorage`, a dict-like
    key-value store over one SQLite table `tb_<storage>`, one row per key:
    `(key, value TEXT, inserted INTEGER, updated INTEGER)`.
  * `src/dictdb/SqliteThreadWork.py` — class `SqliteThreadWork`, a
    command-queue executor: producers enqueue `(token, query, values)`
    triples, a single worker drains the queue in FIFO order.

Modelling decisions:
  * Python values stored through the codec are JSON values (`Json` below).
    Floats are excluded from the model. `Json.null` models Python `None`;
    the code's `x is None` tests become matches on the `Json.null`
    constructor.
  * The `value` column holds the TEXT `json.dumps({'data': v})`.  Since
    `json.loads` is a left inverse of `json.dumps` (the json library's
    contract), the model keeps the decoded wrapper object
    `Json.obj [("data", v)]` in the entry and re-serializes with `dumps`
    exactly where the code exposes the raw TEXT (in `values()`).
  * `int(time.time())` is passed in explicitly as a `now : Nat` argument.
  * SQLite specifics: `INSERT OR REPLACE` with the correlated
    `COALESCE((SELECT inserted ...), :now)` sub-select becomes
    `SharedStorage._set`; a `DELETE ... WHERE key = ?` becomes a filter;
    `TRUNCATE TABLE` is not part of SQLite's grammar, so
    `conn.execute('TRUNCATE TABLE ...')` raises
    `sqlite3.OperationalError` and removes nothing — `clear` is modelled
    accordingly.
  * Exceptions become an `Err` type.  Each mutator returns
    `Storage × Except Err α`: the returned `Storage` is the table state
    after the call, also when an exception propagates (so "the store is
    left unchanged" is statable).
-/

namespace DictDB

/-- JSON values (the Python objects the codec `json.dumps`/`json.loads`
round-trips; floats excluded).  `null` models Python `None`. -/
inductive Json where
  | null : Json
  | bool : Bool → Json
  | num : Int → Json
  | str : String → Json
  | arr : List Json → Json
  | obj : List (String × Json) → Json
  deriving Repr

/-- Lower-case hex digit, as CPython's json encoder emits in `\uXXXX`. -/
def hexDigit (n : Nat) : Char :=
  if n < 10 then Char.ofNat (n + 48) else Char.ofNat (n - 10 + 97)

/-- Four lower-case hex digits. -/
def hex4 (n : Nat) : String :=
  String.mk [hexDigit (n / 4096 % 16), hexDigit (n / 256 % 16),
             hexDigit (n / 16 % 16), hexDigit (n % 16)]

/-- How CPython's `json.dumps` (defaults: `ensure_ascii=True`) escapes one
character inside a string literal. -/
def escapeChar (c : Char) : String :=
  if c = '"' then "\\\""
  else if c = '\\' then "\\\\"
  else if c = '\n' then "\\n"
  else if c = '\t' then "\\t"
  else if c = '\r' then "\\r"
  else if c.toNat = 8 then "\\b"
  else if c.toNat = 12 then "\\f"
  else if c.toNat < 32 then "\\u" ++ hex4 c.toNat
  else if c.toNat < 127 then String.singleton c
  else if c.toNat < 65536 then "\\u" ++ hex4 c.toNat
  else
    "\\u" ++ hex4 (55296 + (c.toNat - 65536) / 1024) ++
    "\\u" ++ hex4 (56320 + (c.toNat - 65536) % 1024)

/-- Escape a whole string, character by character. -/
def escapeString (s : String) : String :=
  s.data.foldr (fun c acc => escapeChar c ++ acc) ""

mutual
/-- `json.dumps` with CPython's default separators `", "` and `": "`. -/
def dumps : Json → String
  | Json.null => "null"
  | Json.bool true => "true"
  | Json.bool false => "false"
  | Json.num n => toString n
  | Json.str s => "\"" ++ escapeString s ++ "\""
  | Json.arr xs => "[" ++ dumpsArr xs ++ "]"
  | Json.obj kvs => "\x7b" ++ dumpsObj kvs ++ "\x7d"

/-- Comma-separated serialization of array elements. -/
def dumpsArr : List Json → String
  | [] => ""
  | [x] => dumps x
  | x :: y :: xs => dumps x ++ ", " ++ dumpsArr (y :: xs)

/-- Comma-separated serialization of object members. -/
def dumpsObj : List (String × Json) → String
  | [] => ""
  | [(k, v)] => "\"" ++ escapeString k ++ "\": " ++ dumps v
  | (k, v) :: kv :: kvs =>
      "\"" ++ escapeString k ++ "\": " ++ dumps v ++ ", " ++ dumpsObj (kv :: kvs)
end

/-- The tagged wrapper the codec stores: `{'data': value}`
(`StorageDict.py:116`). -/
def wrap (v : Json) : Json := Json.obj [("data", v)]

/-- Python `dict.get(field)` on a decoded JSON object: the field's value,
or `None` when absent (`json.loads(row[0]).get('data')`). -/
def Json.getData : Json → String → Json
  | Json.obj kvs, field =>
      match kvs.find? (fun kv => kv.1 == field) with
      | some kv => kv.2
      | none => Json.null
  | _, _ => Json.null

/-- Python's `x is None` test (`None` is a singleton, so identity and
equality coincide for it). -/
def Json.isNull : Json → Bool
  | Json.null => true
  | _ => false

/-- One row of `tb_<storage>`: `(key, value, inserted, updated)`
(`StorageDict.py:83-87`).  `value` keeps the decoded wrapper object; the
raw TEXT cell is `dumps value`. -/
structure Entry where
  key : String
  value : Json
  inserted : Nat
  updated : Nat
  deriving Repr

/-- The state of a `SharedStorage` instance: the table rows plus the
`read_only` flag fixed at construction. `key` is the PRIMARY KEY, so rows
have pairwise distinct keys in any reachable state. -/
structure Storage where
  entries : List Entry
  read_only : Bool
  deriving Repr

/-- The exceptions the embedded operations raise.
`readOnly` is `WBStorageReadOnlyException` (spec: `ReadOnlyViolation`);
`keyError` is Python `KeyError` (spec: `KeyNotFound`);
`nameError` is Python `NameError` (an undefined variable was read);
`operationalError` is `sqlite3.OperationalError`. -/
inductive Err where
  | readOnly : Err
  | keyError (key : String) : Err
  | nameError (name : String) : Err
  | operationalError (msg : String) : Err
  deriving Repr, DecidableEq

/-- `SELECT ... WHERE key = ?` on the PRIMARY KEY: the row with that key,
if any. -/
def findEntry (st : Storage) (key : String) : Option Entry :=
  st.entries.find? (fun e => e.key == key)

namespace SharedStorage

/-- `SharedStorage._set` (`StorageDict.py:111-116`): `INSERT OR REPLACE`
keyed upsert.  `inserted` is `COALESCE((SELECT inserted FROM tb WHERE
key = :key), :now)` — preserved when the key exists, `now` otherwise;
`updated` is always `now`; `value` is the serialized `{'data': value}`
wrapper.  `REPLACE` deletes the conflicting row and inserts the new one. -/
def _set (st : Storage) (key : String) (value : Json) (now : Nat) : Storage :=
  let inserted :=
    match findEntry st key with
    | some e => e.inserted
    | none => now
  { st with
      entries := st.entries.filter (fun e => e.key != key) ++
                 [⟨key, wrap value, inserted, now⟩] }

/-- `SharedStorage._check_read_only` (`StorageDict.py:65-68`). -/
def _check_read_only (st : Storage) : Except Err Unit :=
  if st.read_only then Except.error Err.readOnly else Except.ok ()

/-- `SharedStorage.set` (`StorageDict.py:118-121`): read-only check, then
`_set`, then commit. -/
def set (st : Storage) (key : String) (value : Json) (now : Nat) :
    Storage × Except Err Unit :=
  if st.read_only then (st, Except.error Err.readOnly)
  else (_set st key value now, Except.ok ())

/-- `SharedStorage.get` (`StorageDict.py:130-137`).  `default` is the
Python argument; `Json.null` is Python `None`, the no-default sentinel
(`if default is None: raise KeyError`). -/
def get (st : Storage) (key : String) (default : Json) : Except Err Json :=
  match findEntry st key with
  | some e => Except.ok (Json.getData e.value "data")
  | none =>
      if default.isNull then Except.error (Err.keyError key)
      else Except.ok default

/-- `SharedStorage.delete` (`StorageDict.py:123-128`): read-only check,
`DELETE ... WHERE key = ?`, commit; then, when `rowcount` is zero, the
code evaluates `not ignore_error` — but no variable `ignore_error` is in
scope (the parameter is named `ignore_key_error`), so Python raises
`NameError` before the intended `KeyError` can be reached, whatever the
flag's value.  When the row existed, `not cur.rowcount` is false and the
`and` short-circuits, so no name is looked up and no error is raised. -/
def delete (st : Storage) (key : String) (ignore_key_error : Bool) :
    Storage × Except Err Unit :=
  if st.read_only then (st, Except.error Err.readOnly)
  else
    let deleted := st.entries.any (fun e => e.key == key)
    let st2 : Storage :=
      { st with entries := st.entries.filter (fun e => e.key != key) }
    let _ := ignore_key_error
    if deleted then (st2, Except.ok ())
    else (st2, Except.error (Err.nameError "ignore_error"))

/-- `SharedStorage.update` (`StorageDict.py:139-143`): read-only check,
`_set` for each pair in iteration order, one commit. -/
def update (st : Storage) (dic : List (String × Json)) (now : Nat) :
    Storage × Except Err Unit :=
  if st.read_only then (st, Except.error Err.readOnly)
  else (dic.foldl (fun s kv => _set s kv.1 kv.2 now) st, Except.ok ())

/-- `SharedStorage.pop` (`StorageDict.py:145-157`): begin, `get` (no
default), `delete(..., ignore_key_error=True)`, commit; `except KeyError`
rolls back and returns `default` unless it is `None`, in which case the
`KeyError` is re-raised.  Only `KeyError` is caught. -/
def pop (st : Storage) (key : String) (default : Json) :
    Storage × Except Err Json :=
  if st.read_only then (st, Except.error Err.readOnly)
  else
    match get st key Json.null with
    | Except.ok v =>
        let r := delete st key true
        match r.2 with
        | Except.ok _ => (r.1, Except.ok v)
        | Except.error (Err.keyError k2) =>
            if default.isNull then (st, Except.error (Err.keyError k2))
            else (st, Except.ok default)
        | Except.error Err.readOnly => (r.1, Except.error Err.readOnly)
        | Except.error (Err.nameError n) => (r.1, Except.error (Err.nameError n))
        | Except.error (Err.operationalError m) =>
            (r.1, Except.error (Err.operationalError m))
    | Except.error (Err.keyError k2) =>
        if default.isNull then (st, Except.error (Err.keyError k2))
        else (st, Except.ok default)
    | Except.error Err.readOnly => (st, Except.error Err.readOnly)
    | Except.error (Err.nameError n) => (st, Except.error (Err.nameError n))
    | Except.error (Err.operationalError m) =>
        (st, Except.error (Err.operationalError m))

/-- `SharedStorage.age` (`StorageDict.py:159-165`): `(now - inserted,
now - updated)` for the row, `KeyError` when absent. -/
def age (st : Storage) (key : String) (now : Nat) : Except Err (Int × Int) :=
  match findEntry st key with
  | some e => Except.ok ((now : Int) - (e.inserted : Int),
                         (now : Int) - (e.updated : Int))
  | none => Except.error (Err.keyError key)

/-- `SharedStorage.clear` (`StorageDict.py:167-169`): read-only check,
then `conn.execute('TRUNCATE TABLE tb_<storage>;')`.  SQLite's grammar
has no `TRUNCATE` statement, so sqlite3 raises
`OperationalError: near "TRUNCATE": syntax error` and no row is
removed. -/
def clear (st : Storage) : Storage × Except Err Unit :=
  if st.read_only then (st, Except.error Err.readOnly)
  else (st, Except.error (Err.operationalError "near \"TRUNCATE\": syntax error"))

/-- `SharedStorage.count` (`StorageDict.py:94-96`): `SELECT count(1)`. -/
def count (st : Storage) : Nat := st.entries.length

/-- `SharedStorage.keys` (`StorageDict.py:98-100`). -/
def keys (st : Storage) : List String := st.entries.map (fun e => e.key)

/-- `SharedStorage.values` (`StorageDict.py:102-104`): the raw TEXT cells,
i.e. the serialized wrapper strings, NOT decoded. -/
def values (st : Storage) : List String := st.entries.map (fun e => dumps e.value)

/-- `SharedStorage.items` (`StorageDict.py:106-109`): pairs of key and
DECODED value (`json.loads(row[1]).get('data')`). -/
def items (st : Storage) : List (String × Json) :=
  st.entries.map (fun e => (e.key, Json.getData e.value "data"))

end SharedStorage

/-! ## The command-queue executor (`src/dictdb/SqliteThreadWork.py`)

The worker thread's drain of the queue is modelled sequentially: the
queue contents are an explicit FIFO list of commands and the loop body of
`SqliteThreadWork.run` becomes a step function.  `run_query` is
abstracted to "the command was passed to `cur.execute`" (the select /
non-select distinction only decides where results are stored, which the
claims do not touch). -/

/-- One queued triple `(token, query, values)`
(`SqliteThreadWork.py:151,154`). -/
structure Command where
  token : String
  query : String
  values : List String
  deriving Repr, DecidableEq

/-- The executor state the claims observe.  `executed` is the sequence of
commands passed to `cur.execute`, in order; `committed` is the prefix of
`executed` made durable by `conn.commit()`. -/
structure WorkState where
  executed : List Command
  committed : List Command
  conn_open : Bool
  thread_running : Bool
  exit_set : Bool
  exit_token : String
  execute_count : Nat
  max_queue_size : Nat
  deriving Repr, DecidableEq

/-- The value `SqliteThreadWork.execute` hands back to the producer:
the sentinel failure `["Exit Called"]`, select results polled by token,
or `None` (fire-and-forget mutation). -/
inductive ExecResult where
  | exitCalled : ExecResult
  | queryResults (token : String) : ExecResult
  | fireAndForget : ExecResult
  deriving Repr, DecidableEq

namespace SqliteThreadWork

/-- One iteration body of the worker loop (`SqliteThreadWork.py:60-72`):
a non-sentinel command is executed and `execute_count` incremented; the
connection commits when the queue is observed empty or the batch counter
reaches `max_queue_size`.  A command bearing the exit token is skipped. -/
def processCommand (st : WorkState) (c : Command) (queueEmpty : Bool) : WorkState :=
  if c.token != st.exit_token then
    if queueEmpty || st.execute_count + 1 == st.max_queue_size then
      { st with executed := st.executed ++ [c],
                committed := st.executed ++ [c],
                execute_count := 0 }
    else
      { st with executed := st.executed ++ [c],
                execute_count := st.execute_count + 1 }
  else st

/-- The loop's exit path (`SqliteThreadWork.py:75-79`): final commit,
close the connection, signal `thread_running = False`. -/
def shutdownFinish (st : WorkState) : WorkState :=
  { st with committed := st.executed, conn_open := false,
            thread_running := false }

/-- `SqliteThreadWork.run` (`SqliteThreadWork.py:56-79`) on a fixed FIFO
queue: dequeue in order; after each command, exit once `exit_set` holds
and the queue is empty.  An empty queue with the loop still running
blocks on `queue.get` — modelled as returning the state unchanged (the
claims only exercise the shutdown drain, where the sentinel is last). -/
def run : List Command → WorkState → WorkState
  | [], st => st
  | c :: rest, st =>
      let st1 := processCommand st c rest.isEmpty
      if st1.exit_set && rest.isEmpty then shutdownFinish st1
      else run rest st1

/-- The states `run` passes through, each paired with the queue contents
still pending at that moment (used to observe that the connection only
closes once the queue has drained). -/
def runTrace : List Command → WorkState → List (List Command × WorkState)
  | [], _ => []
  | c :: rest, st =>
      let st1 := processCommand st c rest.isEmpty
      if st1.exit_set && rest.isEmpty then [(rest, shutdownFinish st1)]
      else (rest, st1) :: runTrace rest st1

/-- `SqliteThreadWork.close` (`SqliteThreadWork.py:103-108`): set the
shutdown flag, enqueue the sentinel `(exit_token, "", "")` behind the
`queue` of still-pending commands, and block until the worker has
finished — the returned state is the worker's state once
`thread_running` has gone false. -/
def close (st : WorkState) (queue : List Command) : WorkState :=
  run (queue ++ [⟨st.exit_token, "", []⟩]) { st with exit_set := true }

/-- `query.lower().strip().startswith("select")`
(`SqliteThreadWork.py:150`). -/
def isSelect (query : String) : Bool :=
  (query.toLower.trim).startsWith "select"

/-- `SqliteThreadWork.execute` (`SqliteThreadWork.py:131-154`): when the
shutdown flag is set, return the sentinel failure `["Exit Called"]` at
once, enqueuing nothing and never touching the connection (the function
reads nothing but `exit_set`).  Otherwise enqueue the triple; a select
blocks polling for its token's results, anything else returns `None`
fire-and-forget.  Returns the queue after the call and the producer's
result. -/
def execute (st : WorkState) (queue : List Command) (query : String)
    (values : List String) (token : String) : List Command × ExecResult :=
  if st.exit_set then (queue, ExecResult.exitCalled)
  else if isSelect query then
    (queue ++ [⟨token, query, values⟩], ExecResult.queryResults token)
  else
    (queue ++ [⟨token, query, values⟩], ExecResult.fireAndForget)

end SqliteThreadWork

/-! ## Helper lemmas -/

/-- Rows whose key was just deleted are invisible to a keyed lookup. -/
theorem find?_filter_ne (l : List Entry) (k : String) :
    (l.filter (fun e => e.key != k)).find? (fun e => e.key == k) = none := by
  rw [List.find?_eq_none]
  intro x hx
  have h2 := (List.mem_filter.mp hx).2
  simp only [bne_iff_ne, ne_eq] at h2
  simp [h2]

/-- After the keyed upsert, the looked-up row holds the freshly encoded
value, the `COALESCE`-preserved `inserted`, and `updated = now`. -/
theorem findEntry_set (st : Storage) (k : String) (v : Json) (now : Nat) :
    findEntry (SharedStorage._set st k v now) k =
      some ⟨k, wrap v,
            (match findEntry st k with | some e => e.inserted | none => now),
            now⟩ := by
  unfold SharedStorage._set
  unfold findEntry
  simp only
  rw [List.find?_append, find?_filter_ne]
  simp [List.find?]

/-- Decoding the tagged wrapper returns the wrapped value. -/
theorem getData_wrap (v : Json) : Json.getData (wrap v) "data" = v := rfl

/-- `get` with no default (Python `None`) on an absent key raises
`KeyError`. -/
theorem get_absent_null (st : Storage) (k : String)
    (hn : findEntry st k = none) :
    SharedStorage.get st k Json.null = Except.error (Err.keyError k) := by
  rw [SharedStorage.get, hn]
  exact rfl

/-- `get` with a non-`None` default on an absent key returns the
default. -/
theorem get_absent_default (st : Storage) (k : String) (d : Json)
    (hn : findEntry st k = none) (hd : d.isNull = false) :
    SharedStorage.get st k d = Except.ok d := by
  rw [SharedStorage.get, hn]
  simp [hd]

/-- `get` on a present key decodes the stored wrapper. -/
theorem get_present (st : Storage) (k : String) (d : Json) (e : Entry)
    (he : findEntry st k = some e) :
    SharedStorage.get st k d = Except.ok (Json.getData e.value "data") := by
  rw [SharedStorage.get, he]

/-- A successful keyed lookup means the `DELETE`'s `WHERE` clause matches
some row. -/
theorem any_of_findEntry (st : Storage) (k : String) (e : Entry)
    (he : findEntry st k = some e) :
    st.entries.any (fun x => x.key == k) = true := by
  unfold findEntry at he
  have hmem : e ∈ st.entries := List.mem_of_find?_eq_some he
  have hp := List.find?_some he
  exact List.any_eq_true.mpr ⟨e, hmem, hp⟩

/-- `delete` on a present key in a writable store removes the row and
raises nothing. -/
theorem delete_present (st : Storage) (k : String) (b : Bool) (e : Entry)
    (hro : st.read_only = false) (he : findEntry st k = some e) :
    SharedStorage.delete st k b =
      ({ st with entries := st.entries.filter (fun x => x.key != k) },
       Except.ok ()) := by
  rw [SharedStorage.delete, hro]
  simp [any_of_findEntry st k e he]

/-! ## Claim theorems -/

/-- C1: in a writable store, `set(k, v)` succeeds and a subsequent
`get(k)` (with any `default` argument) returns `v`: the value
round-trips through the `{'data': v}` wrapper codec. -/
theorem C1_set_then_get (st : Storage) (k : String) (v d : Json) (now : Nat)
    (hro : st.read_only = false) :
    (SharedStorage.set st k v now).2 = Except.ok () ∧
    SharedStorage.get (SharedStorage.set st k v now).1 k d = Except.ok v := by
  rw [SharedStorage.set]
  rw [hro]
  refine ⟨rfl, ?_⟩
  simp only [Bool.false_eq_true, if_false]
  rw [SharedStorage.get, findEntry_set]
  exact congrArg Except.ok (getData_wrap v)

/-- Witness for C1 at a concrete input. -/
theorem C1_witness :
    SharedStorage.get (SharedStorage.set ⟨[], false⟩ "a" (Json.num 1) 0).1 "a"
        Json.null = Except.ok (Json.num 1) :=
  (C1_set_then_get ⟨[], false⟩ "a" (Json.num 1) Json.null 0 rfl).2

/-- C2: `set` on a key already present keeps the row's `inserted`
timestamp from the first write and refreshes `updated` to the write
time `t1`; `age` at a later time `t2` then reports
`(t2 - inserted, t2 - t1)`. -/
theorem C2_set_preserves_inserted (st : Storage) (k : String) (v : Json)
    (e : Entry) (t1 t2 : Nat) (hro : st.read_only = false)
    (he : findEntry st k = some e) :
    findEntry (SharedStorage.set st k v t1).1 k =
      some ⟨k, wrap v, e.inserted, t1⟩ ∧
    SharedStorage.age (SharedStorage.set st k v t1).1 k t2 =
      Except.ok ((t2 : Int) - (e.inserted : Int), (t2 : Int) - (t1 : Int)) := by
  rw [SharedStorage.set, hro]
  simp only [Bool.false_eq_true, if_false]
  have hf : findEntry (SharedStorage._set st k v t1) k =
      some ⟨k, wrap v, e.inserted, t1⟩ := by
    rw [findEntry_set, he]
  exact ⟨hf, by rw [SharedStorage.age, hf]⟩

/-- Witness for C2 at a concrete input. -/
theorem C2_witness :
    findEntry (SharedStorage.set
        ⟨[⟨"a", wrap (Json.num 1), 5, 5⟩], false⟩ "a" (Json.num 2) 7).1 "a" =
      some ⟨"a", wrap (Json.num 2), 5, 7⟩ ∧
    SharedStorage.age (SharedStorage.set
        ⟨[⟨"a", wrap (Json.num 1), 5, 5⟩], false⟩ "a" (Json.num 2) 7).1 "a" 9 =
      Except.ok (4, 2) :=
  C2_set_preserves_inserted ⟨[⟨"a", wrap (Json.num 1), 5, 5⟩], false⟩ "a"
    (Json.num 2) ⟨"a", wrap (Json.num 1), 5, 5⟩ 7 9 rfl rfl

/-- C3: on a store opened read-only, every mutating operation — `set`,
`delete`, `update`, `pop`, `clear` — raises the read-only violation and
returns the stored entries unchanged (`_check_read_only` runs before any
statement touches the table). -/
theorem C3_read_only_mutators (st : Storage) (k : String) (v d : Json)
    (b : Bool) (dic : List (String × Json)) (now : Nat)
    (hro : st.read_only = true) :
    SharedStorage.set st k v now = (st, Except.error Err.readOnly) ∧
    SharedStorage.delete st k b = (st, Except.error Err.readOnly) ∧
    SharedStorage.update st dic now = (st, Except.error Err.readOnly) ∧
    SharedStorage.pop st k d = (st, Except.error Err.readOnly) ∧
    SharedStorage.clear st = (st, Except.error Err.readOnly) := by
  rw [SharedStorage.set, SharedStorage.delete, SharedStorage.update,
      SharedStorage.pop, SharedStorage.clear, hro]
  exact ⟨rfl, rfl, rfl, rfl, rfl⟩

/-- Witness for C3 at a concrete input. -/
theorem C3_witness :
    SharedStorage.set ⟨[], true⟩ "a" (Json.num 1) 0 =
      (⟨[], true⟩, Except.error Err.readOnly) ∧
    SharedStorage.delete ⟨[], true⟩ "a" false =
      (⟨[], true⟩, Except.error Err.readOnly) ∧
    SharedStorage.update ⟨[], true⟩ [] 0 =
      (⟨[], true⟩, Except.error Err.readOnly) ∧
    SharedStorage.pop ⟨[], true⟩ "a" Json.null =
      (⟨[], true⟩, Except.error Err.readOnly) ∧
    SharedStorage.clear ⟨[], true⟩ =
      (⟨[], true⟩, Except.error Err.readOnly) :=
  C3_read_only_mutators ⟨[], true⟩ "a" (Json.num 1) Json.null false [] 0 rfl

/-- C4: the claim's present-key half holds (`delete` removes the row and
`get` then raises `KeyError`), but on an ABSENT key `delete` raises
`NameError` — not the no-op (`ignoreMissing=true`) nor the `KeyError`
(`ignoreMissing=false`) the claim states — because line 127 of
`StorageDict.py` reads the undefined name `ignore_error` instead of the
parameter `ignore_key_error`. -/
theorem C4_delete_behaviour :
    SharedStorage.delete ⟨[], false⟩ "k" true =
      (⟨[], false⟩, Except.error (Err.nameError "ignore_error")) ∧
    SharedStorage.delete ⟨[], false⟩ "k" false =
      (⟨[], false⟩, Except.error (Err.nameError "ignore_error")) ∧
    SharedStorage.delete ⟨[⟨"k", wrap (Json.num 1), 0, 0⟩], false⟩ "k" false =
      (⟨[], false⟩, Except.ok ()) ∧
    SharedStorage.get ⟨[], false⟩ "k" Json.null =
      Except.error (Err.keyError "k") :=
  ⟨rfl, rfl, rfl, rfl⟩

/-- C5 counterexample: `pop` on an absent key of a writable store with
the supplied default `None` does not return that default — it re-raises
`KeyError`. -/
theorem C5_counterexample_null_default :
    SharedStorage.pop ⟨[], false⟩ "k" Json.null =
      (⟨[], false⟩, Except.error (Err.keyError "k")) := rfl

/-- C5 (amended): in a writable store, `pop` on an absent key with no
default (or default `None`) re-raises `KeyError` and leaves the store
unmodified (rollback); with a non-`None` default it returns that default,
store unmodified; on a present key it returns the prior decoded value and
removes the entry, in one transaction. -/
theorem C5_pop_spec (st : Storage) (k : String) (d : Json)
    (hro : st.read_only = false) :
    (findEntry st k = none →
      SharedStorage.pop st k Json.null =
        (st, Except.error (Err.keyError k)) ∧
      (d.isNull = false →
        SharedStorage.pop st k d = (st, Except.ok d))) ∧
    (∀ e, findEntry st k = some e →
      SharedStorage.pop st k d =
        ({ st with entries := st.entries.filter (fun x => x.key != k) },
         Except.ok (Json.getData e.value "data"))) := by
  constructor
  · intro hn
    constructor
    · rw [SharedStorage.pop, hro]
      simp only [Bool.false_eq_true, if_false]
      rw [get_absent_null st k hn]
      exact rfl
    · intro hd
      rw [SharedStorage.pop, hro]
      simp only [Bool.false_eq_true, if_false]
      rw [get_absent_null st k hn]
      simp [hd]
  · intro e he
    rw [SharedStorage.pop, hro]
    simp only [Bool.false_eq_true, if_false]
    rw [get_present st k Json.null e he, delete_present st k true e hro he,
        hro]

/-- Witness for C5 at concrete inputs: absent key with a default, absent
key with no default, and present key. -/
theorem C5_witness :
    SharedStorage.pop ⟨[], false⟩ "k" (Json.num 7) =
      (⟨[], false⟩, Except.ok (Json.num 7)) ∧
    SharedStorage.pop ⟨[], false⟩ "k" Json.null =
      (⟨[], false⟩, Except.error (Err.keyError "k")) ∧
    SharedStorage.pop ⟨[⟨"k", wrap (Json.num 1), 0, 0⟩], false⟩ "k"
        Json.null =
      (⟨[], false⟩, Except.ok (Json.num 1)) := by
  refine ⟨?_, ?_, ?_⟩
  · exact ((C5_pop_spec ⟨[], false⟩ "k" (Json.num 7) rfl).1 rfl).2 rfl
  · exact ((C5_pop_spec ⟨[], false⟩ "k" Json.null rfl).1 rfl).1
  · exact (C5_pop_spec ⟨[⟨"k", wrap (Json.num 1), 0, 0⟩], false⟩ "k"
      Json.null rfl).2 ⟨"k", wrap (Json.num 1), 0, 0⟩ rfl

/-- C6: the read-only half of the claim holds, but on a writable store
`clear()` does NOT remove the entries: it issues `TRUNCATE TABLE`, which
SQLite's grammar rejects, so sqlite3 raises `OperationalError` and
`count()` stays at its old value (here 1, not 0). -/
theorem C6_clear_truncate :
    SharedStorage.clear ⟨[⟨"k", wrap (Json.num 1), 0, 0⟩], false⟩ =
      (⟨[⟨"k", wrap (Json.num 1), 0, 0⟩], false⟩,
       Except.error (Err.operationalError "near \"TRUNCATE\": syntax error")) ∧
    SharedStorage.count
      (SharedStorage.clear ⟨[⟨"k", wrap (Json.num 1), 0, 0⟩], false⟩).1 = 1 ∧
    SharedStorage.clear ⟨[], true⟩ = (⟨[], true⟩, Except.error Err.readOnly) :=
  ⟨rfl, rfl, rfl⟩

/-- C9 counterexample: `get` on an absent key with the supplied default
`None` does not return that default — it raises `KeyError` (the code
cannot tell a supplied `None` from no default). -/
theorem C9_counterexample_null_default :
    SharedStorage.get ⟨[], false⟩ "k" Json.null =
      Except.error (Err.keyError "k") := rfl

/-- C9 (amended): `get` on an absent key raises `KeyError` when no
default (i.e. `None`) is supplied and returns the default when a
non-`None` default is supplied; on a present key it returns the decoded
value whatever the default. -/
theorem C9_get_spec (st : Storage) (k : String) (d : Json) :
    (findEntry st k = none →
      SharedStorage.get st k Json.null = Except.error (Err.keyError k)) ∧
    (findEntry st k = none → d.isNull = false →
      SharedStorage.get st k d = Except.ok d) ∧
    (∀ e, findEntry st k = some e →
      SharedStorage.get st k d = Except.ok (Json.getData e.value "data")) :=
  ⟨fun hn => get_absent_null st k hn,
   fun hn hd => get_absent_default st k d hn hd,
   fun e he => get_present st k d e he⟩

/-- Witness for C9 at concrete inputs: absent key without and with a
default, and present key. -/
theorem C9_witness :
    SharedStorage.get ⟨[], false⟩ "a" Json.null =
      Except.error (Err.keyError "a") ∧
    SharedStorage.get ⟨[], false⟩ "a" (Json.num 5) =
      Except.ok (Json.num 5) ∧
    SharedStorage.get ⟨[⟨"a", wrap (Json.num 3), 0, 0⟩], false⟩ "a"
        Json.null = Except.ok (Json.num 3) := by
  refine ⟨?_, ?_, ?_⟩
  · exact (C9_get_spec ⟨[], false⟩ "a" Json.null).1 rfl
  · exact (C9_get_spec ⟨[], false⟩ "a" (Json.num 5)).2.1 rfl rfl
  · exact (C9_get_spec ⟨[⟨"a", wrap (Json.num 3), 0, 0⟩], false⟩ "a"
      Json.null).2.2 ⟨"a", wrap (Json.num 3), 0, 0⟩ rfl

/-! ## Worker-loop lemmas (C7, C8) -/

/-- A dequeued command bearing the exit token is skipped by the loop
body. -/
theorem processCommand_sentinel (st : WorkState) (c : Command) (qe : Bool)
    (h : c.token = st.exit_token) :
    SqliteThreadWork.processCommand st c qe = st := by
  simp [SqliteThreadWork.processCommand, h]

/-- The loop body never changes the shutdown flag, the exit token, the
connection's open state, or the running flag. -/
theorem processCommand_fields (st : WorkState) (c : Command) (qe : Bool) :
    (SqliteThreadWork.processCommand st c qe).exit_set = st.exit_set ∧
    (SqliteThreadWork.processCommand st c qe).exit_token = st.exit_token ∧
    (SqliteThreadWork.processCommand st c qe).conn_open = st.conn_open ∧
    (SqliteThreadWork.processCommand st c qe).thread_running =
      st.thread_running := by
  unfold SqliteThreadWork.processCommand
  split
  · split
    · exact ⟨rfl, rfl, rfl, rfl⟩
    · exact ⟨rfl, rfl, rfl, rfl⟩
  · exact ⟨rfl, rfl, rfl, rfl⟩

/-- A non-sentinel command is passed to `cur.execute`, extending the
executed sequence by exactly that command. -/
theorem processCommand_executed (st : WorkState) (c : Command) (qe : Bool)
    (h : c.token ≠ st.exit_token) :
    (SqliteThreadWork.processCommand st c qe).executed =
      st.executed ++ [c] := by
  unfold SqliteThreadWork.processCommand
  have hb : (c.token != st.exit_token) = true := by simp [h]
  rw [hb]
  simp only [if_true]
  split <;> rfl

/-- Drain lemma: with the shutdown flag set and the sentinel last in the
queue, the worker executes every queued command in order, then commits
everything, closes the connection, and clears `thread_running`. -/
theorem run_drain (q : List Command) (st : WorkState)
    (hexit : st.exit_set = true)
    (htok : ∀ c ∈ q, c.token ≠ st.exit_token) :
    (SqliteThreadWork.run (q ++ [⟨st.exit_token, "", []⟩]) st).executed =
      st.executed ++ q ∧
    (SqliteThreadWork.run (q ++ [⟨st.exit_token, "", []⟩]) st).committed =
      st.executed ++ q ∧
    (SqliteThreadWork.run (q ++ [⟨st.exit_token, "", []⟩]) st).conn_open =
      false ∧
    (SqliteThreadWork.run (q ++ [⟨st.exit_token, "", []⟩]) st).thread_running =
      false := by
  induction q generalizing st with
  | nil =>
      have hsent : SqliteThreadWork.processCommand st
          ⟨st.exit_token, "", []⟩ (([] : List Command).isEmpty) = st :=
        processCommand_sentinel st ⟨st.exit_token, "", []⟩
          (([] : List Command).isEmpty) rfl
      simp only [List.nil_append, SqliteThreadWork.run]
      rw [hsent, hexit]
      simp [SqliteThreadWork.shutdownFinish]
  | cons c q ih =>
      have hhd : c.token ≠ st.exit_token := htok c (List.mem_cons_self c q)
      have hne : ((q ++ [(⟨st.exit_token, "", []⟩ : Command)]).isEmpty) =
          false := by simp
      simp only [List.cons_append, SqliteThreadWork.run, List.append_eq]
      rw [hne]
      simp only [Bool.and_false, Bool.false_eq_true, if_false]
      have hcf := processCommand_fields st c false
      have hce := processCommand_executed st c false hhd
      have hexit1 : (SqliteThreadWork.processCommand st c false).exit_set =
          true := by rw [hcf.1, hexit]
      have htok1 : ∀ x ∈ q,
          x.token ≠ (SqliteThreadWork.processCommand st c false).exit_token := by
        intro x hx
        rw [hcf.2.1]
        exact htok x (List.mem_cons_of_mem c hx)
      have ih1 := ih (SqliteThreadWork.processCommand st c false) hexit1 htok1
      rw [hcf.2.1, hce] at ih1
      simpa [List.append_assoc] using ih1

/-- Trace lemma: starting from an open connection, every state the worker
passes through with the connection closed is one where the queue has
fully drained. -/
theorem runTrace_closed_implies_drained (q : List Command) (st : WorkState)
    (hconn : st.conn_open = true) :
    ∀ p ∈ SqliteThreadWork.runTrace q st,
      p.2.conn_open = false → p.1 = [] := by
  induction q generalizing st with
  | nil =>
      intro p hp
      simp [SqliteThreadWork.runTrace] at hp
  | cons c rest ih =>
      intro p hp hclosed
      simp only [SqliteThreadWork.runTrace] at hp
      have hcf := processCommand_fields st c rest.isEmpty
      by_cases hcond :
          ((SqliteThreadWork.processCommand st c rest.isEmpty).exit_set &&
            rest.isEmpty) = true
      · rw [if_pos hcond] at hp
        have hrest : rest.isEmpty = true := by
          have h2 := hcond
          simp only [Bool.and_eq_true] at h2
          exact h2.2
        have hp2 : p = (rest, SqliteThreadWork.shutdownFinish
            (SqliteThreadWork.processCommand st c rest.isEmpty)) := by
          simpa using hp
        rw [hp2]
        exact List.isEmpty_iff.mp hrest
      · rw [if_neg hcond] at hp
        rcases List.mem_cons.mp hp with h | h
        · rw [h] at hclosed
          rw [hcf.2.2.1, hconn] at hclosed
          exact absurd hclosed (by simp)
        · exact ih (SqliteThreadWork.processCommand st c rest.isEmpty)
            (by rw [hcf.2.2.1, hconn]) p h hclosed

/-- C7: when `close()` is called while commands are still queued, the
worker executes every command enqueued before the shutdown sentinel, the
final commit covers all of them, and the connection is closed only after
the queue has drained; `close()` returns only once the worker has
drained, committed, closed the connection and cleared `thread_running`
(the returned state is the one `close`'s polling loop observes). -/
theorem C7_close_drains (st : WorkState) (q : List Command)
    (htok : ∀ c ∈ q, c.token ≠ st.exit_token)
    (hconn : st.conn_open = true) :
    (SqliteThreadWork.close st q).executed = st.executed ++ q ∧
    (SqliteThreadWork.close st q).committed = st.executed ++ q ∧
    (SqliteThreadWork.close st q).conn_open = false ∧
    (SqliteThreadWork.close st q).thread_running = false ∧
    (∀ p ∈ SqliteThreadWork.runTrace (q ++ [⟨st.exit_token, "", []⟩])
        { st with exit_set := true },
      p.2.conn_open = false → p.1 = []) := by
  have hdrain := run_drain q { st with exit_set := true } rfl htok
  have htrace := runTrace_closed_implies_drained
    (q ++ [⟨st.exit_token, "", []⟩]) { st with exit_set := true } hconn
  exact ⟨hdrain.1, hdrain.2.1, hdrain.2.2.1, hdrain.2.2.2, htrace⟩

/-- Witness for C7: two commands queued at shutdown are both executed and
committed, and the connection ends closed with the worker stopped. -/
theorem C7_witness :
    (SqliteThreadWork.close ⟨[], [], true, true, false, "EXIT", 0, 2000⟩
      [⟨"t1", "INSERT INTO t VALUES (1)", []⟩,
       ⟨"t2", "INSERT INTO t VALUES (2)", []⟩]).executed =
      [⟨"t1", "INSERT INTO t VALUES (1)", []⟩,
       ⟨"t2", "INSERT INTO t VALUES (2)", []⟩] ∧
    (SqliteThreadWork.close ⟨[], [], true, true, false, "EXIT", 0, 2000⟩
      [⟨"t1", "INSERT INTO t VALUES (1)", []⟩,
       ⟨"t2", "INSERT INTO t VALUES (2)", []⟩]).committed =
      [⟨"t1", "INSERT INTO t VALUES (1)", []⟩,
       ⟨"t2", "INSERT INTO t VALUES (2)", []⟩] ∧
    (SqliteThreadWork.close ⟨[], [], true, true, false, "EXIT", 0, 2000⟩
      [⟨"t1", "INSERT INTO t VALUES (1)", []⟩,
       ⟨"t2", "INSERT INTO t VALUES (2)", []⟩]).conn_open = false ∧
    (SqliteThreadWork.close ⟨[], [], true, true, false, "EXIT", 0, 2000⟩
      [⟨"t1", "INSERT INTO t VALUES (1)", []⟩,
       ⟨"t2", "INSERT INTO t VALUES (2)", []⟩]).thread_running = false := by
  have h := C7_close_drains ⟨[], [], true, true, false, "EXIT", 0, 2000⟩
    [⟨"t1", "INSERT INTO t VALUES (1)", []⟩,
     ⟨"t2", "INSERT INTO t VALUES (2)", []⟩]
    (by decide) rfl
  exact ⟨h.1, h.2.1, h.2.2.1, h.2.2.2.1⟩

/-- C8: once the shutdown flag is set, `execute` returns the sentinel
failure `["Exit Called"]` immediately: nothing is enqueued (the returned
queue is the unchanged input queue) and the connection is never touched,
for select and non-select statements alike. -/
theorem C8_execute_after_shutdown (st : WorkState) (queue : List Command)
    (query : String) (values : List String) (token : String)
    (h : st.exit_set = true) :
    SqliteThreadWork.execute st queue query values token =
      (queue, ExecResult.exitCalled) := by
  rw [SqliteThreadWork.execute, h]
  exact rfl

/-- Witness for C8 at concrete inputs (one select, one mutation). -/
theorem C8_witness :
    SqliteThreadWork.execute ⟨[], [], true, true, true, "EXIT", 0, 2000⟩ []
      "select * from t" [] "tok1" = ([], ExecResult.exitCalled) ∧
    SqliteThreadWork.execute ⟨[], [], true, true, true, "EXIT", 0, 2000⟩ []
      "INSERT INTO t VALUES (1)" [] "tok2" = ([], ExecResult.exitCalled) :=
  ⟨C8_execute_after_shutdown ⟨[], [], true, true, true, "EXIT", 0, 2000⟩ []
      "select * from t" [] "tok1" rfl,
   C8_execute_after_shutdown ⟨[], [], true, true, true, "EXIT", 0, 2000⟩ []
      "INSERT INTO t VALUES (1)" [] "tok2" rfl⟩

/-! ## Serializer length bounds (C10) -/

/-- Four hex digits serialize to four characters. -/
theorem hex4_len (n : Nat) : (hex4 n).length = 4 := rfl

/-- Escaping a character never produces the empty string. -/
theorem escapeChar_len (c : Char) : 1 ≤ (escapeChar c).length := by
  unfold escapeChar
  repeat' split
  · decide
  · decide
  · decide
  · decide
  · decide
  · decide
  · decide
  · rw [String.length_append, hex4_len]; omega
  · rw [String.length_singleton]
  · rw [String.length_append, hex4_len]; omega
  · rw [String.length_append, hex4_len, String.length_append,
        String.length_append, hex4_len]
    omega

/-- Escaping never shortens: the escaped form of a string is at least as
long as the string. -/
theorem escape_foldr_len (l : List Char) :
    l.length ≤ (l.foldr (fun c acc => escapeChar c ++ acc) "").length := by
  induction l with
  | nil => simp
  | cons c cs ih =>
      simp only [List.foldr_cons, List.length_cons, String.length_append]
      have h := escapeChar_len c
      omega

/-- Escaping never shortens, at the `String` level. -/
theorem escapeString_len (s : String) : s.length ≤ (escapeString s).length :=
  escape_foldr_len s.data

/-- The serialized wrapper of a string value is strictly longer than the
string itself (the `{"data": "..."}` framing adds twelve characters and
escaping only lengthens) — so no stored string can equal its own raw
cell text. -/
theorem dumps_wrap_str_len (s : String) :
    s.length < (dumps (wrap (Json.str s))).length := by
  have h1 : dumps (wrap (Json.str s)) =
      "\x7b" ++ ("\"" ++ escapeString "data" ++ "\": " ++
        ("\"" ++ escapeString s ++ "\"")) ++ "\x7d" := by
    rw [show wrap (Json.str s) = Json.obj [("data", Json.str s)] from rfl]
    rw [dumps, dumpsObj, dumps]
  rw [h1]
  have hd : (escapeString "data").length = 4 := by decide
  simp only [String.length_append, hd]
  have hs := escapeString_len s
  have hl1 : ("\x7b" : String).length = 1 := by decide
  have hl2 : ("\"" : String).length = 1 := by decide
  have hl3 : ("\": " : String).length = 3 := by decide
  have hl4 : ("\x7d" : String).length = 1 := by decide
  rw [hl1, hl2, hl3, hl4]
  omega

/-- No JSON value equals the serialized text of its own wrapper: for a
string value a length count rules it out, for any other shape the
constructors differ. -/
theorem str_dumps_wrap_ne (v : Json) : Json.str (dumps (wrap v)) ≠ v := by
  cases v with
  | null => exact fun h => Json.noConfusion h
  | bool b => exact fun h => Json.noConfusion h
  | num n => exact fun h => Json.noConfusion h
  | arr xs => exact fun h => Json.noConfusion h
  | obj kvs => exact fun h => Json.noConfusion h
  | str s =>
      intro h
      have h2 : dumps (wrap (Json.str s)) = s := by
        injection h
      have h3 := dumps_wrap_str_len s
      rw [h2] at h3
      omega

/-- C10: on any non-empty store whose cells hold codec-written wrappers,
`values()` returns the raw serialized wrapper strings (the JSON text of
`{"data": v}`), while `items()` decodes — so the list `values()` is never
equal (as Python values, strings compared against decoded values) to the
list of second components of `items()`. -/
theorem C10_values_ne_items (st : Storage) (hne : st.entries ≠ [])
    (hwf : ∀ e ∈ st.entries, ∃ v, e.value = wrap v) :
    (SharedStorage.values st).map Json.str ≠
      (SharedStorage.items st).map Prod.snd := by
  intro h
  cases hst : st.entries with
  | nil => exact hne hst
  | cons e rest =>
      obtain ⟨v, hv⟩ := hwf e (by rw [hst]; exact List.mem_cons_self e rest)
      rw [SharedStorage.values, SharedStorage.items, hst] at h
      simp only [List.map_cons] at h
      injection h with h1 h2
      rw [hv, getData_wrap] at h1
      exact str_dumps_wrap_ne v h1

/-- Witness for C10 at a concrete one-entry store. -/
theorem C10_witness :
    (SharedStorage.values
        ⟨[⟨"k", wrap (Json.num 1), 0, 0⟩], false⟩).map Json.str ≠
      (SharedStorage.items
        ⟨[⟨"k", wrap (Json.num 1), 0, 0⟩], false⟩).map Prod.snd :=
  C10_values_ne_items ⟨[⟨"k", wrap (Json.num 1), 0, 0⟩], false⟩
    (by simp)
    (by
      intro e he
      simp only [List.mem_singleton] at he
      exact ⟨Json.num 1, by rw [he]⟩)

end DictDB
